import Mathlib

/-!
Verification development for the vibium session router and extension
command engine (clicker/internal/proxy/router.go). The Go code is shallowly
embedded: pure computations become Lean functions, the per-session mutable
state (internal-command id counter, pending-id map, event-listener registry,
closed flag) is passed explicitly, and the outcomes of I/O and of channel
selects are supplied as explicit parameters (oracles), so that every
control-flow decision of the Go code is reproduced by a Lean `match`/`if`
on those outcomes.
-/

namespace Vibium

/-! ### Frames (router.go lines 46-57: bidiResponse, bidiError) -/

/-- bidiError (router.go lines 54-57): the error payload of an extension
response, with fields `error` (short code) and `message`. -/
structure bidiError where
  error : String
  message : String
deriving DecidableEq, Repr

/-- Bounding box of an element (router.go lines 534-539, boxInfo); the four
float64 fields are embedded as rationals. -/
structure boxInfo where
  x : ℚ
  y : ℚ
  width : ℚ
  height : ℚ
deriving DecidableEq, Repr

/-- elementInfo (router.go lines 528-532): parsed element information
returned by the polling script. -/
structure elementInfo where
  tag : String
  text : String
  box : boxInfo
deriving DecidableEq, Repr

/-- The `result` payloads the extension engine sends in success responses:
router.go line 319 sends clicked, line 484 typed, lines 515-524 the element
info of a find. -/
inductive vibiumResult where
  | clicked
  | typed
  | found (tag : String) (text : String) (box : boxInfo)
deriving DecidableEq, Repr

/-- bidiResponse (router.go lines 46-52): the envelope the router sends to
the client for extension commands; `type` is "success" or "error". -/
structure bidiResponse where
  id : Int
  type : String
  result : Option vibiumResult
  error : Option bidiError
deriving DecidableEq, Repr

/-- sendSuccess (router.go lines 628-633). -/
def sendSuccess (id : Int) (result : vibiumResult) : bidiResponse :=
  { id := id, type := "success", result := some result, error := none }

/-- sendError (router.go lines 635-647): every error response carries the
fixed code "timeout" in `error.error`; only `message` varies. -/
def sendError (id : Int) (msg : String) : bidiResponse :=
  { id := id, type := "error", result := none,
    error := some { error := "timeout", message := msg } }

/-! ### Session internal-command state (router.go lines 17-37, 105-114) -/

/-- The internal-command tracking slice of BrowserSession (router.go lines
26-29): the id counter `nextInternalID` and the key set of the
`internalCmds` map (`pending`). The connection handles, channels and
mutexes of the Go struct are I/O objects outside the embedding. -/
structure BrowserSession where
  nextInternalID : Int
  pending : List Int
deriving DecidableEq, Repr

/-- The freshly constructed session of OnClientConnect (router.go lines
105-114): the counter starts at 1000000 and no internal command is
pending. -/
def newBrowserSession : BrowserSession :=
  { nextInternalID := 1000000, pending := [] }

/-- The id-allocation prefix of sendInternalCommand (router.go lines
758-763): take the current counter as the new id, increment the counter,
and install the id in the pending map. -/
def allocInternalID (s : BrowserSession) : Int × BrowserSession :=
  (s.nextInternalID,
   { nextInternalID := s.nextInternalID + 1,
     pending := s.pending ++ [s.nextInternalID] })

/-- removeFirst l a deletes the first occurrence of `a` from `l` (the
semantics of Go's map delete on the key set, and of the scan-and-remove
loop of removeEventListener, router.go lines 664-671). -/
def removeFirst {α : Type} [DecidableEq α] : List α → α → List α
  | [], _ => []
  | x :: rest, a => if x = a then rest else x :: removeFirst rest a

/-- Outcome of BidiConn.Send for the encoded internal command (router.go
line 778). -/
inductive SendOutcome where
  | ok
  | sendFail (msg : String)
deriving DecidableEq, Repr

/-- Which alternative of the three-way select of sendInternalCommand
(router.go lines 783-790) fires: the reply channel, the 60-second
time.After, or the closed stopChan. -/
inductive WaitOutcome where
  | reply (raw : String)
  | hardCapTimeout
  | stopSignal
deriving DecidableEq, Repr

/-- Result of an internal command: the raw response frame, or an error
message. -/
inductive CmdResult where
  | success (raw : String)
  | failure (msg : String)
deriving DecidableEq, Repr

/-- sendInternalCommand (router.go lines 756-791): allocate an id and
install it in the pending map; the deferred delete (lines 765-769) removes
the entry on every exit path; a send failure returns the send error; the
select returns the reply, the hard-cap timeout error naming the method, or
the session-closed error. -/
def sendInternalCommand (s : BrowserSession) (method : String)
    (send : SendOutcome) (wait : WaitOutcome) : CmdResult × BrowserSession :=
  let alloc := allocInternalID s
  let sFinal : BrowserSession :=
    { alloc.2 with pending := removeFirst alloc.2.pending alloc.1 }
  match send with
  | .sendFail m => (.failure m, sFinal)
  | .ok =>
    match wait with
    | .reply raw => (.success raw, sFinal)
    | .hardCapTimeout =>
        (.failure ("timeout waiting for response to " ++ method), sFinal)
    | .stopSignal => (.failure "session closed", sFinal)

/-! ### Correlator step (router.go lines 709-752, routeBrowserToClient) -/

/-- The shape the Correlator parses each browser frame into (router.go
lines 710-713): an optional id and a method (empty string when absent), or
an unparseable frame. -/
inductive ParsedFrame where
  | unparseable
  | parsed (id : Option Int) (method : String)
deriving DecidableEq, Repr

/-- What the Correlator does with one browser frame: the pending id whose
reply channel received the raw frame (if any), the event method whose
listeners were offered the frame (if any), and the raw frame forwarded to
the client (if forwarded). -/
structure RouteAction where
  deliveredInternal : Option Int
  dispatchedEvent : Option String
  forwardedToClient : Option String
deriving DecidableEq, Repr

/-- The per-frame body of routeBrowserToClient (router.go lines 709-752):
a frame whose id is positive and registered in the pending map is delivered
to the internal reply channel and the loop continues (no forward, line
724); an event (no id, non-empty method) is dispatched to the listener
snapshot and also forwarded; every other frame, including an unparseable
one, is forwarded to the client verbatim (line 749). -/
def routeBrowserToClientStep (pending : List Int) (raw : String)
    (f : ParsedFrame) : RouteAction :=
  match f with
  | .unparseable =>
      { deliveredInternal := none, dispatchedEvent := none,
        forwardedToClient := some raw }
  | .parsed id? method =>
    match id? with
    | some i =>
        if 0 < i ∧ i ∈ pending then
          { deliveredInternal := some i, dispatchedEvent := none,
            forwardedToClient := none }
        else
          { deliveredInternal := none, dispatchedEvent := none,
            forwardedToClient := some raw }
    | none =>
        if method ≠ "" then
          { deliveredInternal := none, dispatchedEvent := some method,
            forwardedToClient := some raw }
        else
          { deliveredInternal := none, dispatchedEvent := none,
            forwardedToClient := some raw }

/-! ### Client message classification (router.go lines 136-181) -/

/-- What OnClientMessage does with one client frame (after the session
lookup): drop it when the session is closed; otherwise route the three
vibium extension methods to their handlers and forward every other frame
— parseable or not — to the browser unchanged. -/
inductive ClientMessageAction where
  | ignoredClosed
  | handleClick
  | handleType
  | handleFind
  | forwardToBrowser (raw : String)
deriving DecidableEq, Repr

/-- OnClientMessage (router.go lines 136-181): `parseOk` is whether
json.Unmarshal succeeded and `method` the parsed method (unused when
parsing failed). The raw message is forwarded byte-for-byte in both
forward paths (lines 158 and 178); no field of the session's
internal-command state is read or written. -/
def onClientMessage (sessionClosed : Bool) (parseOk : Bool)
    (method : String) (raw : String) : ClientMessageAction :=
  if sessionClosed then .ignoredClosed
  else if parseOk = false then .forwardToBrowser raw
  else if method = "vibium:click" then .handleClick
  else if method = "vibium:type" then .handleType
  else if method = "vibium:find" then .handleFind
  else .forwardToBrowser raw

/-! ### Session teardown (router.go lines 793-829, closeSession) -/

/-- The externally visible steps of closeSession, in the order the code can
emit them. -/
inductive TeardownStep where
  | unsubscribeNav
  | signalStop
  | closeBidiConn
  | closeBrowser
deriving DecidableEq, Repr

/-- The state closeSession consults: the closed flag (guarded by the
session mutex) and whether each teardown target exists
(navigationSubscriptionID non-empty with a non-nil BidiClient; non-nil
BidiConn; non-nil LaunchResult). -/
structure SessionCloseState where
  closed : Bool
  hasNavSubscription : Bool
  hasBidiConn : Bool
  hasLaunchResult : Bool
deriving DecidableEq, Repr

/-- closeSession (router.go lines 793-829): a second call returns at the
closed-flag check (lines 795-799); the first call sets the flag and then
performs, in this order: unsubscribe navigation events (lines 806-813,
best-effort), close(stopChan) (line 816), close the BiDi connection (lines
819-821), close the browser (lines 824-826). -/
def closeSession (s : SessionCloseState) :
    SessionCloseState × List TeardownStep :=
  if s.closed then (s, [])
  else
    ({ s with closed := true },
     (if s.hasNavSubscription then [TeardownStep.unsubscribeNav] else [])
       ++ [TeardownStep.signalStop]
       ++ (if s.hasBidiConn then [TeardownStep.closeBidiConn] else [])
       ++ (if s.hasLaunchResult then [TeardownStep.closeBrowser] else []))

/-! ### Numeric helpers: Go conversions and Duration formatting -/

/-- Go's `int(f)` conversion of a float64 (router.go lines 228-229 and
368-369): truncation toward zero — floor for nonnegative values, ceiling
for negative ones. -/
def goInt (q : ℚ) : ℤ :=
  if 0 ≤ q then ⌊q⌋ else ⌈q⌉

/-- The fractional-second part of Go's time.Duration formatting, for a
duration with `frac` leftover milliseconds (0 ≤ frac < 1000): empty for a
whole number of seconds, otherwise a dot followed by the millisecond
digits with trailing zeros trimmed. -/
def msFrac (frac : Nat) : String :=
  if frac = 0 then ""
  else
    let d1 := frac / 100
    let d2 := frac / 10 % 10
    let d3 := frac % 10
    if d3 ≠ 0 then "." ++ toString d1 ++ toString d2 ++ toString d3
    else if d2 ≠ 0 then "." ++ toString d1 ++ toString d2
    else "." ++ toString d1

/-- Go's time.Duration `%s` formatting (fmt.Errorf at router.go lines 621,
290, 301, 310, 787), restricted to whole-millisecond durations, which are
the only ones the router constructs: "0s", "300ms", "30s", "1.5s",
"1m30s", "2h3m4.5s". -/
def formatGoDuration (ms : Nat) : String :=
  if ms = 0 then "0s"
  else if ms < 1000 then toString ms ++ "ms"
  else
    let totalSec := ms / 1000
    let frac := ms % 1000
    let secPart := toString (totalSec % 60) ++ msFrac frac ++ "s"
    if totalSec < 60 then secPart
    else
      let totalMin := totalSec / 60
      let minPart := toString (totalMin % 60) ++ "m" ++ secPart
      if totalMin < 60 then minPart
      else toString (totalMin / 60) ++ "h" ++ minPart

/-- The timeout resolution shared by the three handlers (router.go lines
193-196, 333-336, 493-496): a positive `timeout` param (a float64,
truncated by the time.Duration conversion) overrides the 30-second
default. The result is in milliseconds. -/
def resolveTimeout (timeoutMs : ℚ) : Nat :=
  if 0 < timeoutMs then (goInt timeoutMs).toNat else 30000

/-! ### Element polling (router.go lines 564-626, waitForElement) -/

/-- The outcome of one polling iteration's script.callFunction round trip
(router.go lines 598-618): the internal command failed (line 599, err not
nil — including the session-closed abort); the response did not
unmarshal (line 610); the nested result was not a non-empty string — the
script returned null or a non-string (line 611); the JSON string did not
parse as elementInfo (line 613); or the element info was obtained. -/
inductive PollOutcome where
  | sendFailed (msg : String)
  | respUnparseable
  | resultNotString
  | infoUnparseable
  | found (info : elementInfo)
deriving DecidableEq, Repr

/-- The element info of a poll, when the iteration succeeded on all three
parse stages. -/
def PollOutcome.foundInfo : PollOutcome → Option elementInfo
  | .found info => some info
  | _ => none

/-- The timeout error message of waitForElement (router.go line 621). -/
def elementNotFoundMsg (timeout : Nat) (selector : String) : String :=
  "timeout after " ++ formatGoDuration timeout ++ " waiting for '"
    ++ selector ++ "': element not found"

/-- How one run of the waitForElement loop ended: the result, and the
loop-clock value (milliseconds since the deadline was set) at which it
returned. -/
structure LoopExit where
  res : Except String elementInfo
  exitTime : Nat
deriving Repr

/-- The polling loop of waitForElement (router.go lines 587-625): poll
(the k-th outcome given by `polls`); on a fully parsed element return it;
otherwise, if the current time is strictly past the deadline, return the
timeout error; otherwise sleep the 100 ms interval and repeat. Time is
modelled by `now`, advanced 100 ms per sleep; the deadline is at
`timeout`. -/
def waitForElementLoop (polls : Nat → PollOutcome) (selector : String)
    (timeout : Nat) (k : Nat) (now : Nat) : LoopExit :=
  match (polls k).foundInfo with
  | some info => { res := Except.ok info, exitTime := now }
  | none =>
    if timeout < now then
      { res := Except.error (elementNotFoundMsg timeout selector),
        exitTime := now }
    else waitForElementLoop polls selector timeout (k + 1) (now + 100)
termination_by timeout + 1 - now
decreasing_by simp_wf; omega

/-- waitForElement (router.go lines 564-626): run the loop from the moment
the deadline is set. -/
def waitForElement (polls : Nat → PollOutcome) (selector : String)
    (timeout : Nat) : LoopExit :=
  waitForElementLoop polls selector timeout 0 0

/-! ### Event listener registry (router.go lines 649-672) -/

/-- The session's eventListeners registry, flattened to registration-ordered
(method, channel) entries; the per-method list of router.go line 654 is the
subsequence of entries with that method. Channels are identified by the
Nat handle the allocator issued. -/
abbrev EventListeners := List (String × Nat)

/-- addEventListener (router.go lines 651-657): append a fresh channel to
the method's listener list. The fresh channel handle `ch` is supplied by
the caller's allocation counter. -/
def addEventListener (listeners : EventListeners) (method : String)
    (ch : Nat) : EventListeners :=
  listeners ++ [(method, ch)]

/-- removeEventListener (router.go lines 660-672): scan the method's list
and remove (then close) the first channel equal to `ch`. -/
def removeEventListener (listeners : EventListeners) (method : String)
    (ch : Nat) : EventListeners :=
  removeFirst listeners (method, ch)

/-- The listener registrations of handleVibiumClick/handleVibiumType
(router.go lines 249-260 and 414-425): navigationStarted for every policy
other than "none", domContentLoaded only for "waitForDomContentLoaded",
load only for "waitForLoad". Channel handles are drawn from the fresh
counter `nc`. Returns the three optional channels, the new registry and
the advanced counter. -/
def registerNavListeners (waitBehavior : String)
    (listeners : EventListeners) (nc : Nat) :
    (Option Nat × Option Nat × Option Nat) × EventListeners × Nat :=
  let s1 :=
    if waitBehavior ≠ "none" then
      (some nc, addEventListener listeners "browsingContext.navigationStarted" nc, nc + 1)
    else (none, listeners, nc)
  let s2 :=
    if waitBehavior = "waitForDomContentLoaded" then
      (some s1.2.2, addEventListener s1.2.1 "browsingContext.domContentLoaded" s1.2.2, s1.2.2 + 1)
    else (none, s1.2.1, s1.2.2)
  let s3 :=
    if waitBehavior = "waitForLoad" then
      (some s2.2.2, addEventListener s2.2.1 "browsingContext.load" s2.2.2, s2.2.2 + 1)
    else (none, s2.2.1, s2.2.2)
  ((s1.1, s2.1, s3.1), s3.2.1, s3.2.2)

/-- The cleanupListeners closure of handleVibiumClick/handleVibiumType
(router.go lines 262-273 and 427-438): remove whichever of the three
channels were registered, navigationStarted first, then domContentLoaded,
then load. -/
def cleanupListeners (chans : Option Nat × Option Nat × Option Nat)
    (listeners : EventListeners) : EventListeners :=
  let l1 := match chans.1 with
    | some ch => removeEventListener listeners "browsingContext.navigationStarted" ch
    | none => listeners
  let l2 := match chans.2.1 with
    | some ch => removeEventListener l1 "browsingContext.domContentLoaded" ch
    | none => l1
  match chans.2.2 with
  | some ch => removeEventListener l2 "browsingContext.load" ch
  | none => l2

/-! ### Context resolution (router.go lines 541-562, getContext) -/

/-- The outcome of the browsingContext.getTree round trip inside
getContext: the internal command failed; the response did not unmarshal;
or the parsed context list. -/
inductive GetTreeOutcome where
  | cmdFailed (msg : String)
  | parseFailed (msg : String)
  | contexts (ctxs : List String)
deriving DecidableEq, Repr

/-- getContext (router.go lines 541-562): propagate an internal-command
error; wrap a parse error; fail with "no browsing contexts available" on an
empty list; otherwise return the first context. -/
def getContext (o : GetTreeOutcome) : Except String String :=
  match o with
  | .cmdFailed m => .error m
  | .parseFailed m => .error ("failed to parse getTree response: " ++ m)
  | .contexts [] => .error "no browsing contexts available"
  | .contexts (c :: _) => .ok c

/-! ### Extension command handlers (router.go lines 183-525) -/

/-- Which alternative of a navigation wait stage fires. The selects of
router.go lines 285-292, 296-303, 305-312 (and their copies in
handleVibiumType, lines 450-457, 461-468, 470-477) have exactly these two
alternatives: the listener channel and the time.After timer for the
remaining deadline; the session stopChan is not among them. -/
inductive NavWaitOutcome where
  | eventReceived
  | timerFired
deriving DecidableEq, Repr

/-- The outcomes of the I/O a handleVibiumClick run performs: the getTree
round trip (when the context param is empty), the time the context
resolution consumed from the deadline (in ms), the per-iteration polling
outcomes, the input.performActions round trip for the click, and the three
navigation wait stages. -/
structure ClickEnv where
  tree : GetTreeOutcome
  ctxElapsed : Nat
  polls : Nat → PollOutcome
  performClick : Except String String
  navStarted : NavWaitOutcome
  domContentLoaded : NavWaitOutcome
  load : NavWaitOutcome

/-- The outcomes of the I/O a handleVibiumType run performs: as ClickEnv,
plus the separate input.performActions round trips for the focusing click
and for the key actions. -/
structure TypeEnv where
  tree : GetTreeOutcome
  ctxElapsed : Nat
  polls : Nat → PollOutcome
  performFocusClick : Except String String
  performType : Except String String
  navStarted : NavWaitOutcome
  domContentLoaded : NavWaitOutcome
  load : NavWaitOutcome

/-- The outcomes of the I/O a handleVibiumFind run performs. -/
structure FindEnv where
  tree : GetTreeOutcome
  polls : Nat → PollOutcome

/-- What a click/type handler run produced: the response sent to the
client, the final listener registry, the advanced channel-allocation
counter, and the integer coordinates of the pointerMove action of the
issued click (none when no click command was issued). -/
structure HandlerOutput where
  response : bidiResponse
  eventListeners : EventListeners
  nextChan : Nat
  pointerMove : Option (Int × Int)

/-- handleVibiumClick (router.go lines 183-320). An empty waitBehavior
defaults to "waitForLoad" (lines 189-191). The prologue resolves the
context (lines 211-218) and polls for the element with the remaining time
(lines 221-225). The click coordinates are the element center converted by
Go's int() (lines 228-229). Listeners are registered per the wait policy
(lines 249-260), the click issued (lines 276-280), the enabled wait stages
run (lines 283-314) with the stage timeout messages of lines 290, 301,
310 naming the full timeout Duration, and the listeners are removed on
every exit path. -/
def handleVibiumClick (id : Int) (selector context waitBehaviorParam : String)
    (timeoutMs : ℚ) (env : ClickEnv) (listeners : EventListeners)
    (nc : Nat) : HandlerOutput :=
  let waitBehavior :=
    if waitBehaviorParam = "" then "waitForLoad" else waitBehaviorParam
  let timeout := resolveTimeout timeoutMs
  match (if context = "" then getContext env.tree else Except.ok context) with
  | .error e => ⟨sendError id e, listeners, nc, none⟩
  | .ok _ctx =>
    match (waitForElement env.polls selector (timeout - env.ctxElapsed)).res with
    | .error e => ⟨sendError id e, listeners, nc, none⟩
    | .ok info =>
      let x := goInt (info.box.x + info.box.width / 2)
      let y := goInt (info.box.y + info.box.height / 2)
      let reg := registerNavListeners waitBehavior listeners nc
      match env.performClick with
      | .error e =>
          ⟨sendError id e, cleanupListeners reg.1 reg.2.1, reg.2.2, some (x, y)⟩
      | .ok _ =>
        if waitBehavior ≠ "none" then
          match env.navStarted with
          | .timerFired =>
              ⟨sendError id ("timeout after " ++ formatGoDuration timeout
                  ++ " waiting for navigation to start"),
               cleanupListeners reg.1 reg.2.1, reg.2.2, some (x, y)⟩
          | .eventReceived =>
            if waitBehavior = "waitForDomContentLoaded" then
              match env.domContentLoaded with
              | .timerFired =>
                  ⟨sendError id ("timeout after " ++ formatGoDuration timeout
                      ++ " waiting for DOMContentLoaded"),
                   cleanupListeners reg.1 reg.2.1, reg.2.2, some (x, y)⟩
              | .eventReceived =>
                  ⟨sendSuccess id .clicked,
                   cleanupListeners reg.1 reg.2.1, reg.2.2, some (x, y)⟩
            else if waitBehavior = "waitForLoad" then
              match env.load with
              | .timerFired =>
                  ⟨sendError id ("timeout after " ++ formatGoDuration timeout
                      ++ " waiting for page load"),
                   cleanupListeners reg.1 reg.2.1, reg.2.2, some (x, y)⟩
              | .eventReceived =>
                  ⟨sendSuccess id .clicked,
                   cleanupListeners reg.1 reg.2.1, reg.2.2, some (x, y)⟩
            else
              ⟨sendSuccess id .clicked,
               cleanupListeners reg.1 reg.2.1, reg.2.2, some (x, y)⟩
        else
          ⟨sendSuccess id .clicked,
           cleanupListeners reg.1 reg.2.1, reg.2.2, some (x, y)⟩

/-- handleVibiumType (router.go lines 322-485). An empty waitBehavior
defaults to "none" (lines 329-331). The prologue is that of click; the
focusing click uses the same center coordinates (lines 368-369) and is
issued before any listener is registered (lines 389-392); the key-action
payload built from `text` (lines 394-412) carries no information the
properties below consult and is left outside the embedding. Listeners are
registered per the wait policy, the typing issued (lines 441-445), the
enabled wait stages run (lines 448-479) and the listeners removed on every
exit path. -/
def handleVibiumType (id : Int) (selector context text waitBehaviorParam : String)
    (timeoutMs : ℚ) (env : TypeEnv) (listeners : EventListeners)
    (nc : Nat) : HandlerOutput :=
  let waitBehavior :=
    if waitBehaviorParam = "" then "none" else waitBehaviorParam
  let timeout := resolveTimeout timeoutMs
  match (if context = "" then getContext env.tree else Except.ok context) with
  | .error e => ⟨sendError id e, listeners, nc, none⟩
  | .ok _ctx =>
    match (waitForElement env.polls selector (timeout - env.ctxElapsed)).res with
    | .error e => ⟨sendError id e, listeners, nc, none⟩
    | .ok info =>
      let x := goInt (info.box.x + info.box.width / 2)
      let y := goInt (info.box.y + info.box.height / 2)
      match env.performFocusClick with
      | .error e => ⟨sendError id e, listeners, nc, some (x, y)⟩
      | .ok _ =>
        let reg := registerNavListeners waitBehavior listeners nc
        match env.performType with
        | .error e =>
            ⟨sendError id e, cleanupListeners reg.1 reg.2.1, reg.2.2, some (x, y)⟩
        | .ok _ =>
          if waitBehavior ≠ "none" then
            match env.navStarted with
            | .timerFired =>
                ⟨sendError id ("timeout after " ++ formatGoDuration timeout
                    ++ " waiting for navigation to start"),
                 cleanupListeners reg.1 reg.2.1, reg.2.2, some (x, y)⟩
            | .eventReceived =>
              if waitBehavior = "waitForDomContentLoaded" then
                match env.domContentLoaded with
                | .timerFired =>
                    ⟨sendError id ("timeout after " ++ formatGoDuration timeout
                        ++ " waiting for DOMContentLoaded"),
                     cleanupListeners reg.1 reg.2.1, reg.2.2, some (x, y)⟩
                | .eventReceived =>
                    ⟨sendSuccess id .typed,
                     cleanupListeners reg.1 reg.2.1, reg.2.2, some (x, y)⟩
              else if waitBehavior = "waitForLoad" then
                match env.load with
                | .timerFired =>
                    ⟨sendError id ("timeout after " ++ formatGoDuration timeout
                        ++ " waiting for page load"),
                     cleanupListeners reg.1 reg.2.1, reg.2.2, some (x, y)⟩
                | .eventReceived =>
                    ⟨sendSuccess id .typed,
                     cleanupListeners reg.1 reg.2.1, reg.2.2, some (x, y)⟩
              else
                ⟨sendSuccess id .typed,
                 cleanupListeners reg.1 reg.2.1, reg.2.2, some (x, y)⟩
          else
            ⟨sendSuccess id .typed,
             cleanupListeners reg.1 reg.2.1, reg.2.2, some (x, y)⟩

/-- handleVibiumFind (router.go lines 487-525): resolve the context, poll
for the element with the full timeout, and send the element info or the
error. It registers no event listeners and issues no pointer actions. -/
def handleVibiumFind (id : Int) (selector context : String)
    (timeoutMs : ℚ) (env : FindEnv) : bidiResponse :=
  let timeout := resolveTimeout timeoutMs
  match (if context = "" then getContext env.tree else Except.ok context) with
  | .error e => sendError id e
  | .ok _ctx =>
    match (waitForElement env.polls selector timeout).res with
    | .error e => sendError id e
    | .ok info => sendSuccess id (.found info.tag info.text info.box)

/-! ### Sample inputs used by witnesses -/

/-- A bounding box with a nonnegative center: center (12, 23). -/
def sampleBox : boxInfo := { x := 10, y := 20, width := 4, height := 6 }

/-- A sample element info. -/
def sampleInfo : elementInfo := { tag := "button", text := "go", box := sampleBox }

/-- A bounding box whose x-center is negative: center (-9/2, 1). -/
def negBox : boxInfo := { x := -5, y := 0, width := 1, height := 2 }

/-- A sample element info with a negative x-center. -/
def negInfo : elementInfo := { tag := "div", text := "", box := negBox }

/-- A click environment in which every step succeeds and the element is
found on the first poll. -/
def sampleClickEnv : ClickEnv :=
  { tree := .contexts ["c"], ctxElapsed := 0,
    polls := fun _ => .found sampleInfo, performClick := .ok "resp",
    navStarted := .eventReceived, domContentLoaded := .eventReceived,
    load := .eventReceived }

/-- A type environment in which every step succeeds and the element is
found on the first poll. -/
def sampleTypeEnv : TypeEnv :=
  { tree := .contexts ["c"], ctxElapsed := 0,
    polls := fun _ => .found sampleInfo, performFocusClick := .ok "resp",
    performType := .ok "resp",
    navStarted := .eventReceived, domContentLoaded := .eventReceived,
    load := .eventReceived }

/-- A click environment whose element has a negative x-center. -/
def negClickEnv : ClickEnv :=
  { tree := .contexts ["c"], ctxElapsed := 0,
    polls := fun _ => .found negInfo, performClick := .ok "resp",
    navStarted := .eventReceived, domContentLoaded := .eventReceived,
    load := .eventReceived }

/-! ### Helper lemmas -/

/-- Removing an element from a list that does not contain it up to the
point of its (appended) occurrence removes exactly that occurrence. -/
theorem removeFirst_append_of_not_mem {α : Type} [DecidableEq α]
    (l l' : List α) (a : α) (h : a ∉ l) :
    removeFirst (l ++ a :: l') a = l ++ l' := by
  induction l with
  | nil => simp [removeFirst]
  | cons x xs ih =>
    have hxa : ¬ x = a := fun hx => h (by simp [hx])
    have hxs : a ∉ xs := fun hm => h (List.mem_cons_of_mem _ hm)
    simp only [List.cons_append, removeFirst, if_neg hxa]
    exact congrArg (fun t => x :: t) (ih hxs)

/-- Cleaning up the listeners registered for a wait policy restores the
registry, provided every pre-existing channel handle is below the
allocation counter. -/
theorem cleanupListeners_registerNavListeners (wb : String)
    (listeners : EventListeners) (nc : Nat)
    (hwf : ∀ e ∈ listeners, e.2 < nc) :
    cleanupListeners (registerNavListeners wb listeners nc).1
        (registerNavListeners wb listeners nc).2.1 = listeners := by
  have hfresh : ∀ (m : String) (j : Nat), nc ≤ j → (m, j) ∉ listeners :=
    fun m j hj hmem => absurd (hwf _ hmem) (by omega)
  by_cases hn : wb = "none"
  · subst hn
    simp [registerNavListeners, cleanupListeners]
  · by_cases hd : wb = "waitForDomContentLoaded"
    · subst hd
      have hreg : registerNavListeners "waitForDomContentLoaded" listeners nc
          = ((some nc, some (nc + 1), none),
             listeners ++ [("browsingContext.navigationStarted", nc),
               ("browsingContext.domContentLoaded", nc + 1)], nc + 2) := by
        simp [registerNavListeners, addEventListener]
      rw [hreg]
      simp only [cleanupListeners, removeEventListener]
      rw [removeFirst_append_of_not_mem _ _ _ (hfresh _ _ le_rfl),
          removeFirst_append_of_not_mem _ _ _ (hfresh _ _ (by omega))]
      simp
    · by_cases hl : wb = "waitForLoad"
      · subst hl
        have hreg : registerNavListeners "waitForLoad" listeners nc
            = ((some nc, none, some (nc + 1)),
               listeners ++ [("browsingContext.navigationStarted", nc),
                 ("browsingContext.load", nc + 1)], nc + 2) := by
          simp [registerNavListeners, addEventListener]
        rw [hreg]
        simp only [cleanupListeners, removeEventListener]
        rw [removeFirst_append_of_not_mem _ _ _ (hfresh _ _ le_rfl),
            removeFirst_append_of_not_mem _ _ _ (hfresh _ _ (by omega))]
        simp
      · have hreg : registerNavListeners wb listeners nc
            = ((some nc, none, none),
               listeners ++ [("browsingContext.navigationStarted", nc)], nc + 1) := by
          simp [registerNavListeners, addEventListener, hn, hd, hl]
        rw [hreg]
        simp only [cleanupListeners, removeEventListener]
        rw [removeFirst_append_of_not_mem _ _ _ (hfresh _ _ le_rfl)]
        simp

/-- With no poll ever succeeding, the waitForElement loop ends only by the
deadline, with the element-not-found message, strictly after the
deadline. -/
theorem waitForElementLoop_no_found (polls : Nat → PollOutcome)
    (selector : String) (timeout : Nat)
    (h : ∀ j, (polls j).foundInfo = none) (k now : Nat) :
    (waitForElementLoop polls selector timeout k now).res
        = Except.error (elementNotFoundMsg timeout selector) ∧
    timeout < (waitForElementLoop polls selector timeout k now).exitTime := by
  have H : ∀ (fuel k now : Nat), timeout + 1 - now ≤ fuel →
      (waitForElementLoop polls selector timeout k now).res
          = Except.error (elementNotFoundMsg timeout selector) ∧
      timeout < (waitForElementLoop polls selector timeout k now).exitTime := by
    intro fuel
    induction fuel with
    | zero =>
      intro k now hle
      have hnow : timeout < now := by omega
      rw [waitForElementLoop, h k]
      simp [hnow]
    | succ n ih =>
      intro k now hle
      rw [waitForElementLoop, h k]
      by_cases hnow : timeout < now
      · simp [hnow]
      · simp only [if_neg hnow]
        exact ih (k + 1) (now + 100) (by omega)
  exact H (timeout + 1 - now) k now le_rfl

/-- When the first poll finds the element, waitForElement returns it
immediately. -/
theorem waitForElement_found_zero (polls : Nat → PollOutcome)
    (selector : String) (timeout : Nat) (info : elementInfo)
    (h : (polls 0).foundInfo = some info) :
    waitForElement polls selector timeout
      = { res := Except.ok info, exitTime := 0 } := by
  rw [waitForElement, waitForElementLoop, h]

/-- Every response a handleVibiumClick run sends is a sendSuccess or a
sendError for the command's id. -/
theorem handleVibiumClick_response_cases (id : Int)
    (selector context waitBehavior : String) (timeoutMs : ℚ) (env : ClickEnv)
    (listeners : EventListeners) (nc : Nat) :
    (∃ p, (handleVibiumClick id selector context waitBehavior timeoutMs env
        listeners nc).response = sendSuccess id p) ∨
    (∃ m, (handleVibiumClick id selector context waitBehavior timeoutMs env
        listeners nc).response = sendError id m) := by
  unfold handleVibiumClick
  repeat' (first | split | dsimp only)
  all_goals first | exact Or.inl ⟨_, rfl⟩ | exact Or.inr ⟨_, rfl⟩

/-- Every response a handleVibiumType run sends is a sendSuccess or a
sendError for the command's id. -/
theorem handleVibiumType_response_cases (id : Int)
    (selector context text waitBehavior : String) (timeoutMs : ℚ)
    (env : TypeEnv) (listeners : EventListeners) (nc : Nat) :
    (∃ p, (handleVibiumType id selector context text waitBehavior timeoutMs
        env listeners nc).response = sendSuccess id p) ∨
    (∃ m, (handleVibiumType id selector context text waitBehavior timeoutMs
        env listeners nc).response = sendError id m) := by
  unfold handleVibiumType
  repeat' (first | split | dsimp only)
  all_goals first | exact Or.inl ⟨_, rfl⟩ | exact Or.inr ⟨_, rfl⟩

/-- Every response a handleVibiumFind run sends is a sendSuccess or a
sendError for the command's id. -/
theorem handleVibiumFind_response_cases (id : Int)
    (selector context : String) (timeoutMs : ℚ) (env : FindEnv) :
    (∃ p, handleVibiumFind id selector context timeoutMs env
        = sendSuccess id p) ∨
    (∃ m, handleVibiumFind id selector context timeoutMs env
        = sendError id m) := by
  unfold handleVibiumFind
  repeat' (first | split | dsimp only)
  all_goals first | exact Or.inl ⟨_, rfl⟩ | exact Or.inr ⟨_, rfl⟩

/-! ### Claim theorems -/

/-- C1 (counterexample): with a fresh session, the first internal command
takes id 1000000 and is pending; a client command carrying id 1000000 is
forwarded to the browser unchanged (no counter advance, no rejection), and
the browser's response frame with id 1000000 is then delivered to the
router's internal reply channel and never forwarded to the client —
refuting the claim that the client's response still returns to the
client. -/
theorem internal_id_capture_cex :
    allocInternalID newBrowserSession
      = (1000000, { nextInternalID := 1000001, pending := [1000000] }) ∧
    onClientMessage false true "browsingContext.getTree" "client-cmd-with-id-1000000"
      = ClientMessageAction.forwardToBrowser "client-cmd-with-id-1000000" ∧
    routeBrowserToClientStep [1000000] "browser-response-with-id-1000000"
        (.parsed (some 1000000) "")
      = { deliveredInternal := some 1000000, dispatchedEvent := none,
          forwardedToClient := none } := by
  refine ⟨rfl, ?_, ?_⟩ <;> decide

/-- C1 (amended): internal ids start at 1000000 and increment monotonically
per session, and client commands whose method is not a vibium extension are
forwarded to the browser verbatim (ids unchanged, the counter untouched);
but neither mitigation policy exists: a browser frame whose positive id is
currently pending is captured by the router and never forwarded to the
client, so a client command that reuses a pending internal id loses its
response. -/
theorem internal_id_policy :
    newBrowserSession.nextInternalID = 1000000 ∧
    (∀ s : BrowserSession,
        (allocInternalID s).1 = s.nextInternalID ∧
        (allocInternalID s).2.nextInternalID = s.nextInternalID + 1) ∧
    (∀ (method raw : String),
        method ≠ "vibium:click" → method ≠ "vibium:type" →
        method ≠ "vibium:find" →
        onClientMessage false true method raw
          = ClientMessageAction.forwardToBrowser raw) ∧
    (∀ (pending : List Int) (raw : String) (i : Int) (method : String),
        0 < i → i ∈ pending →
        routeBrowserToClientStep pending raw (.parsed (some i) method)
          = { deliveredInternal := some i, dispatchedEvent := none,
              forwardedToClient := none }) := by
  refine ⟨rfl, fun s => ⟨rfl, rfl⟩, ?_, ?_⟩
  · intro method raw h1 h2 h3
    simp [onClientMessage, h1, h2, h3]
  · intro pending raw i method hi hmem
    simp [routeBrowserToClientStep, hi, hmem]

/-- C1 witness: the amended theorem applied at a concrete method and a
concrete pending id. -/
theorem internal_id_policy_witness :
    onClientMessage false true "session.status" "raw-frame"
      = ClientMessageAction.forwardToBrowser "raw-frame" ∧
    routeBrowserToClientStep [1000000] "resp" (.parsed (some 1000000) "")
      = { deliveredInternal := some 1000000, dispatchedEvent := none,
          forwardedToClient := none } :=
  ⟨internal_id_policy.2.2.1 "session.status" "raw-frame"
      (by decide) (by decide) (by decide),
   internal_id_policy.2.2.2 [1000000] "resp" 1000000 ""
      (by decide) (by decide)⟩

/-- C2: a browser frame whose id is registered in the internal-pending map
(whose entries, allocated from the counter, are all at least 1000000) is
delivered to the pending reply channel and never forwarded to the client;
a frame whose id is not in the pending map is forwarded to the client
verbatim. -/
theorem correlator_internal_routing :
    ∀ (pending : List Int) (raw : String) (i : Int) (method : String),
      (∀ j ∈ pending, 1000000 ≤ j) →
      (i ∈ pending →
        routeBrowserToClientStep pending raw (.parsed (some i) method)
          = { deliveredInternal := some i, dispatchedEvent := none,
              forwardedToClient := none }) ∧
      (i ∉ pending →
        routeBrowserToClientStep pending raw (.parsed (some i) method)
          = { deliveredInternal := none, dispatchedEvent := none,
              forwardedToClient := some raw }) := by
  intro pending raw i method hwf
  constructor
  · intro hmem
    have hi : 0 < i := by have := hwf i hmem; omega
    simp [routeBrowserToClientStep, hi, hmem]
  · intro hnm
    simp [routeBrowserToClientStep, hnm]

/-- C2 witness: the theorem applied with pending map [1000000], once at the
registered id and once at an unregistered one. -/
theorem correlator_internal_routing_witness :
    routeBrowserToClientStep [1000000] "raw1" (.parsed (some 1000000) "")
      = { deliveredInternal := some 1000000, dispatchedEvent := none,
          forwardedToClient := none } ∧
    routeBrowserToClientStep [1000000] "raw2" (.parsed (some 7) "")
      = { deliveredInternal := none, dispatchedEvent := none,
          forwardedToClient := some "raw2" } :=
  ⟨(correlator_internal_routing [1000000] "raw1" 1000000 "" (by decide)).1
      (by decide),
   (correlator_internal_routing [1000000] "raw2" 7 "" (by decide)).2
      (by decide)⟩

/-- C3 (counterexample): on a session with a subscription, a connection and
a browser process, the single teardown sequence is unsubscribe, then
signal stop, then close the connection, then close the browser — not the
claimed order with the stop signal first. -/
theorem closeSession_order_cex :
    closeSession
        { closed := false, hasNavSubscription := true, hasBidiConn := true,
          hasLaunchResult := true }
      = ({ closed := true, hasNavSubscription := true, hasBidiConn := true,
           hasLaunchResult := true },
         [TeardownStep.unsubscribeNav, TeardownStep.signalStop,
          TeardownStep.closeBidiConn, TeardownStep.closeBrowser]) ∧
    [TeardownStep.unsubscribeNav, TeardownStep.signalStop,
     TeardownStep.closeBidiConn, TeardownStep.closeBrowser]
      ≠ [TeardownStep.signalStop, TeardownStep.unsubscribeNav,
         TeardownStep.closeBidiConn, TeardownStep.closeBrowser] := by
  decide

/-- C3 (amended): session teardown is idempotent — the first call on an
unclosed session performs the teardown (including the stop signal) and
every later call is a no-op — and its steps follow the order: unsubscribe
navigation events (best-effort), then signal stop, then close the BiDi
connection, then terminate the browser process. -/
theorem closeSession_idempotent_ordered :
    ∀ s : SessionCloseState,
      (closeSession s).2.Sublist
        [TeardownStep.unsubscribeNav, TeardownStep.signalStop,
         TeardownStep.closeBidiConn, TeardownStep.closeBrowser] ∧
      (s.closed = false → TeardownStep.signalStop ∈ (closeSession s).2) ∧
      closeSession (closeSession s).1 = ((closeSession s).1, []) := by
  intro s
  rcases s with ⟨c, b1, b2, b3⟩
  cases c <;> cases b1 <;> cases b2 <;> cases b3 <;> decide

/-- C3 witness: the amended theorem at a fully populated unclosed
session. -/
theorem closeSession_idempotent_ordered_witness :
    (closeSession
        { closed := false, hasNavSubscription := true, hasBidiConn := true,
          hasLaunchResult := true }).2.Sublist
      [TeardownStep.unsubscribeNav, TeardownStep.signalStop,
       TeardownStep.closeBidiConn, TeardownStep.closeBrowser] ∧
    TeardownStep.signalStop ∈
      (closeSession
        { closed := false, hasNavSubscription := true, hasBidiConn := true,
          hasLaunchResult := true }).2 ∧
    closeSession
        (closeSession
          { closed := false, hasNavSubscription := true, hasBidiConn := true,
            hasLaunchResult := true }).1
      = ((closeSession
          { closed := false, hasNavSubscription := true, hasBidiConn := true,
            hasLaunchResult := true }).1, []) :=
  ⟨(closeSession_idempotent_ordered _).1,
   (closeSession_idempotent_ordered _).2.1 rfl,
   (closeSession_idempotent_ordered _).2.2⟩

/-- C6: sendInternalCommand restores the pending map on every exit path
(the deferred delete), advances the counter, and — once the send succeeded
— returns exactly one of: the delivered response, the 60-second hard-cap
timeout error naming the method, or the session-closed error; a send
failure returns the send error (still with the entry removed). -/
theorem sendInternalCommand_outcomes :
    ∀ (s : BrowserSession) (method : String) (send : SendOutcome)
      (wait : WaitOutcome),
      (∀ j ∈ s.pending, j < s.nextInternalID) →
      (sendInternalCommand s method send wait).2.pending = s.pending ∧
      (sendInternalCommand s method send wait).2.nextInternalID
        = s.nextInternalID + 1 ∧
      (send = SendOutcome.ok →
        ((∃ raw, wait = WaitOutcome.reply raw ∧
            (sendInternalCommand s method send wait).1 = CmdResult.success raw) ∨
         (wait = WaitOutcome.hardCapTimeout ∧
            (sendInternalCommand s method send wait).1
              = CmdResult.failure ("timeout waiting for response to " ++ method)) ∨
         (wait = WaitOutcome.stopSignal ∧
            (sendInternalCommand s method send wait).1
              = CmdResult.failure "session closed"))) ∧
      (∀ m, send = SendOutcome.sendFail m →
        (sendInternalCommand s method send wait).1 = CmdResult.failure m) := by
  intro s method send wait hwf
  have hnm : s.nextInternalID ∉ s.pending :=
    fun hmem => absurd (hwf _ hmem) (lt_irrefl _)
  have hpend : removeFirst (s.pending ++ [s.nextInternalID]) s.nextInternalID
      = s.pending := by
    have := removeFirst_append_of_not_mem s.pending [] s.nextInternalID hnm
    simpa using this
  cases send <;> cases wait <;>
    simp [sendInternalCommand, allocInternalID, hpend]

/-- C6 witness: the theorem at a fresh session, once per select
alternative and once for a send failure. -/
theorem sendInternalCommand_outcomes_witness :
    (sendInternalCommand newBrowserSession "script.callFunction"
        SendOutcome.ok (WaitOutcome.reply "resp")).2.pending = [] ∧
    (sendInternalCommand newBrowserSession "script.callFunction"
        SendOutcome.ok WaitOutcome.stopSignal).1
      = CmdResult.failure "session closed" ∧
    (sendInternalCommand newBrowserSession "script.callFunction"
        (SendOutcome.sendFail "broken pipe") WaitOutcome.stopSignal).1
      = CmdResult.failure "broken pipe" := by
  have h1 := sendInternalCommand_outcomes newBrowserSession
    "script.callFunction" SendOutcome.ok (WaitOutcome.reply "resp")
    (by intro j hj; simp [newBrowserSession] at hj)
  have h2 := sendInternalCommand_outcomes newBrowserSession
    "script.callFunction" SendOutcome.ok WaitOutcome.stopSignal
    (by intro j hj; simp [newBrowserSession] at hj)
  have h3 := sendInternalCommand_outcomes newBrowserSession
    "script.callFunction" (SendOutcome.sendFail "broken pipe")
    WaitOutcome.stopSignal
    (by intro j hj; simp [newBrowserSession] at hj)
  refine ⟨?_, ?_, h3.2.2.2 "broken pipe" rfl⟩
  · have := h1.1
    simpa [newBrowserSession] using this
  · rcases h2.2.2.1 rfl with ⟨raw, hr, _⟩ | ⟨hr, _⟩ | ⟨_, hres⟩
    · exact WaitOutcome.noConfusion hr
    · exact WaitOutcome.noConfusion hr
    · exact hres

/-- C4 (counterexample): with the stop signal fired, every poll's internal
command aborts with "session closed", yet the element polling loop does
not wake with that aborted error: for a vibium wait with timeout 300 it
keeps polling past its deadline and returns the element-not-found timeout
error — refuting the claim that none of the inner waits keeps running
until its deadline after the stop signal fires. -/
theorem stop_signal_poll_cex :
    (waitForElement (fun _ => PollOutcome.sendFailed "session closed") "#x" 300).res
      = Except.error "timeout after 300ms waiting for '#x': element not found" ∧
    (waitForElement (fun _ => PollOutcome.sendFailed "session closed") "#x" 300).res
      ≠ Except.error "session closed" ∧
    300 < (waitForElement (fun _ => PollOutcome.sendFailed "session closed") "#x" 300).exitTime := by
  have h := waitForElementLoop_no_found
    (fun _ => PollOutcome.sendFailed "session closed") "#x" 300
    (fun j => rfl) 0 0
  have hmsg : elementNotFoundMsg 300 "#x"
      = "timeout after 300ms waiting for '#x': element not found" := by rfl
  refine ⟨?_, ?_, h.2⟩
  · rw [waitForElement, h.1, hmsg]
  · rw [waitForElement, h.1, hmsg]
    simp

/-- C4 (amended): closing the stop signal wakes only the internal-command
wait, whose select returns the session-closed error at once; the element
polling loop treats every failed internal call (including the
session-closed abort) as "not yet" and keeps running until strictly past
its own deadline, returning the element-not-found timeout error; and the
navigation wait stages of click/type select only between the listener
event and the remaining-time timer — the stop signal is not among their
alternatives. -/
theorem stop_signal_waits :
    (∀ (s : BrowserSession) (method : String),
        (sendInternalCommand s method SendOutcome.ok WaitOutcome.stopSignal).1
          = CmdResult.failure "session closed") ∧
    (∀ (polls : Nat → PollOutcome) (selector : String) (timeout k now : Nat),
        (∀ j, (polls j).foundInfo = none) →
        (waitForElementLoop polls selector timeout k now).res
            = Except.error (elementNotFoundMsg timeout selector) ∧
        timeout < (waitForElementLoop polls selector timeout k now).exitTime) ∧
    (∀ o : NavWaitOutcome,
        o = NavWaitOutcome.eventReceived ∨ o = NavWaitOutcome.timerFired) := by
  refine ⟨fun s method => rfl, ?_, fun o => ?_⟩
  · intro polls selector timeout k now h
    exact waitForElementLoop_no_found polls selector timeout h k now
  · cases o
    · exact Or.inl rfl
    · exact Or.inr rfl

/-- C4 witness: the amended theorem at a fresh session and at a concrete
always-failing poll stream. -/
theorem stop_signal_waits_witness :
    (sendInternalCommand newBrowserSession "input.performActions"
        SendOutcome.ok WaitOutcome.stopSignal).1
      = CmdResult.failure "session closed" ∧
    (waitForElementLoop (fun _ => PollOutcome.sendFailed "session closed")
        "#y" 0 0 0).res = Except.error (elementNotFoundMsg 0 "#y") :=
  ⟨stop_signal_waits.1 newBrowserSession "input.performActions",
   (stop_signal_waits.2.1 (fun _ => PollOutcome.sendFailed "session closed")
      "#y" 0 0 0 (fun _ => rfl)).1⟩

/-- C7: in the element polling loop every non-found outcome — a failed
internal call, an unparseable response, a null or non-string script value,
an unparseable info string — counts as "not yet"; only the deadline ends
the loop, with the message "timeout after T waiting for S: element not
found"; concretely, a vibium:find for selector "#nope" with timeout 300
and no matching element yields the error frame with id 1, type "error",
error code "timeout" and exactly that message. -/
theorem find_timeout_only_deadline :
    (∀ (polls : Nat → PollOutcome) (selector : String) (timeout k now : Nat),
        (∀ j, (polls j).foundInfo = none) →
        (waitForElementLoop polls selector timeout k now).res
          = Except.error (elementNotFoundMsg timeout selector)) ∧
    handleVibiumFind 1 "#nope" "" 300
        { tree := .contexts ["c"], polls := fun _ => .resultNotString }
      = ⟨1, "error", none,
         some ⟨"timeout",
           "timeout after 300ms waiting for '#nope': element not found"⟩⟩ := by
  constructor
  · intro polls selector timeout k now h
    exact (waitForElementLoop_no_found polls selector timeout h k now).1
  · have htime : resolveTimeout 300 = 300 := by
      norm_num [resolveTimeout, goInt]
      decide
    have hloop := (waitForElementLoop_no_found
      (fun _ => PollOutcome.resultNotString) "#nope" 300 (fun j => rfl) 0 0).1
    have hmsg : elementNotFoundMsg 300 "#nope"
        = "timeout after 300ms waiting for '#nope': element not found" := by rfl
    simp only [handleVibiumFind, htime, getContext, waitForElement]
    rw [hloop, hmsg]
    simp [sendError]

/-- C7 witness: the general part of the theorem at a concrete
always-failing poll stream. -/
theorem find_timeout_only_deadline_witness :
    (waitForElementLoop (fun _ => PollOutcome.infoUnparseable) "#a" 0 0 0).res
      = Except.error (elementNotFoundMsg 0 "#a") :=
  find_timeout_only_deadline.1 (fun _ => PollOutcome.infoUnparseable)
    "#a" 0 0 0 (fun _ => rfl)

/-- C5: after a vibium:click or vibium:type run exits — by success, by a
stage timeout, or by an error on any path — the session's event-listener
registry is exactly what it was before the command: every listener the
command added has been removed (vibium:find adds none). The hypothesis
says pre-existing channel handles are below the allocation counter, which
the allocator maintains. -/
theorem listener_registry_restored :
    ∀ (id : Int) (selector context waitBehavior text : String)
      (timeoutMs : ℚ) (envC : ClickEnv) (envT : TypeEnv)
      (listeners : EventListeners) (nc : Nat),
      (∀ e ∈ listeners, e.2 < nc) →
      (handleVibiumClick id selector context waitBehavior timeoutMs envC
          listeners nc).eventListeners = listeners ∧
      (handleVibiumType id selector context text waitBehavior timeoutMs envT
          listeners nc).eventListeners = listeners := by
  intro id selector context waitBehavior text timeoutMs envC envT listeners nc hwf
  have key1 := cleanupListeners_registerNavListeners "waitForLoad" listeners nc hwf
  have key2 := cleanupListeners_registerNavListeners waitBehavior listeners nc hwf
  have key3 := cleanupListeners_registerNavListeners "none" listeners nc hwf
  constructor
  · unfold handleVibiumClick
    repeat' (first | split | dsimp only)
    all_goals first | rfl | exact key1 | exact key2 | exact key3
  · unfold handleVibiumType
    repeat' (first | split | dsimp only)
    all_goals first | rfl | exact key1 | exact key2 | exact key3

/-- C5 witness: the theorem at an empty registry and successful click and
type runs. -/
theorem listener_registry_restored_witness :
    (handleVibiumClick 7 "#b" "" "" 1000 sampleClickEnv [] 0).eventListeners
      = [] ∧
    (handleVibiumType 7 "#b" "" "ab" "" 1000 sampleTypeEnv [] 0).eventListeners
      = [] :=
  listener_registry_restored 7 "#b" "" "" "ab" 1000 sampleClickEnv
    sampleTypeEnv [] 0 (by intro e he; simp at he)

/-- C8 (counterexample): for an element whose bounding box is
x=-5, y=0, width=1, height=2 — center (-9/2, 1) — the click's pointerMove
x-coordinate is -4 (Go truncation toward zero), while the floor of -9/2 is
-5: the claim's "floor, including when the center coordinates are
negative" does not hold. -/
theorem click_pointer_floor_cex :
    (handleVibiumClick 7 "#b" "c" "none" 1000 negClickEnv [] 0).pointerMove
      = some (-4, 1) ∧
    ⌊((-5 : ℚ) + 1 / 2)⌋ = -5 ∧ ((-4 : ℤ) ≠ -5) := by
  refine ⟨?_, by norm_num, by decide⟩
  have hres : (waitForElement negClickEnv.polls "#b"
      (resolveTimeout 1000 - negClickEnv.ctxElapsed)).res = Except.ok negInfo := by
    rw [waitForElement_found_zero negClickEnv.polls "#b"
      (resolveTimeout 1000 - negClickEnv.ctxElapsed) negInfo rfl]
  unfold handleVibiumClick
  rw [if_neg (show ¬("c" = "") by decide)]
  dsimp only
  rw [hres]
  dsimp only
  norm_num [negClickEnv, negInfo, negBox, registerNavListeners,
    cleanupListeners, goInt]
  rw [Int.ceil_eq_iff]
  constructor <;> norm_num

/-- C8 (amended): whenever the element prologue of vibium:click or of
vibium:type succeeds with info, the issued pointerMove is at the element
center converted by Go's int() — truncation toward zero — which coincides
with floor exactly when the center coordinate is nonnegative (negative
centers are rounded up, not down). -/
theorem click_pointer_truncation :
    ∀ (id : Int) (selector context waitBehavior text : String)
      (timeoutMs : ℚ) (envC : ClickEnv) (envT : TypeEnv)
      (listeners : EventListeners) (nc : Nat) (info : elementInfo),
      context ≠ "" →
      (waitForElement envC.polls selector
          (resolveTimeout timeoutMs - envC.ctxElapsed)).res = Except.ok info →
      (waitForElement envT.polls selector
          (resolveTimeout timeoutMs - envT.ctxElapsed)).res = Except.ok info →
      (handleVibiumClick id selector context waitBehavior timeoutMs envC
          listeners nc).pointerMove
        = some (goInt (info.box.x + info.box.width / 2),
                goInt (info.box.y + info.box.height / 2)) ∧
      (handleVibiumType id selector context text waitBehavior timeoutMs envT
          listeners nc).pointerMove
        = some (goInt (info.box.x + info.box.width / 2),
                goInt (info.box.y + info.box.height / 2)) ∧
      (0 ≤ info.box.x + info.box.width / 2 →
        goInt (info.box.x + info.box.width / 2)
          = ⌊info.box.x + info.box.width / 2⌋) ∧
      (0 ≤ info.box.y + info.box.height / 2 →
        goInt (info.box.y + info.box.height / 2)
          = ⌊info.box.y + info.box.height / 2⌋) := by
  intro id selector context waitBehavior text timeoutMs envC envT listeners
    nc info hctx hresC hresT
  refine ⟨?_, ?_, fun h => by simp [goInt, h], fun h => by simp [goInt, h]⟩
  · unfold handleVibiumClick
    rw [if_neg hctx]
    dsimp only
    rw [hresC]
    dsimp only
    repeat' (first | split | dsimp only)
    all_goals rfl
  · unfold handleVibiumType
    rw [if_neg hctx]
    dsimp only
    rw [hresT]
    dsimp only
    repeat' (first | split | dsimp only)
    all_goals rfl

/-- C8 witness: the amended theorem at an element with nonnegative center
(12, 23). -/
theorem click_pointer_truncation_witness :
    (handleVibiumClick 7 "#b" "c" "" 1000 sampleClickEnv [] 0).pointerMove
      = some (12, 23) ∧
    (handleVibiumType 7 "#b" "c" "ab" "" 1000 sampleTypeEnv [] 0).pointerMove
      = some (12, 23) := by
  have hresC : (waitForElement sampleClickEnv.polls "#b"
      (resolveTimeout 1000 - sampleClickEnv.ctxElapsed)).res
        = Except.ok sampleInfo := by
    rw [waitForElement_found_zero sampleClickEnv.polls "#b"
      (resolveTimeout 1000 - sampleClickEnv.ctxElapsed) sampleInfo rfl]
  have hresT : (waitForElement sampleTypeEnv.polls "#b"
      (resolveTimeout 1000 - sampleTypeEnv.ctxElapsed)).res
        = Except.ok sampleInfo := by
    rw [waitForElement_found_zero sampleTypeEnv.polls "#b"
      (resolveTimeout 1000 - sampleTypeEnv.ctxElapsed) sampleInfo rfl]
  have h := click_pointer_truncation 7 "#b" "c" "" "ab" 1000 sampleClickEnv
    sampleTypeEnv [] 0 sampleInfo (by decide) hresC hresT
  constructor
  · rw [h.1]
    norm_num [sampleInfo, sampleBox, goInt]
  · rw [h.2.1]
    norm_num [sampleInfo, sampleBox, goInt]

/-- C9: a non-empty waitBehavior outside the recognized set is not
rejected: a vibium:click or vibium:type run with it is identical — same
listeners registered, same waits performed, same response — to the run
with "waitForNavigationStarted". -/
theorem unrecognized_waitBehavior :
    ∀ (id : Int) (selector context text wb : String) (timeoutMs : ℚ)
      (envC : ClickEnv) (envT : TypeEnv) (listeners : EventListeners)
      (nc : Nat),
      wb ≠ "" → wb ≠ "none" → wb ≠ "waitForDomContentLoaded" →
      wb ≠ "waitForLoad" →
      handleVibiumClick id selector context wb timeoutMs envC listeners nc
        = handleVibiumClick id selector context "waitForNavigationStarted"
            timeoutMs envC listeners nc ∧
      handleVibiumType id selector context text wb timeoutMs envT listeners nc
        = handleVibiumType id selector context text "waitForNavigationStarted"
            timeoutMs envT listeners nc := by
  intro id selector context text wb timeoutMs envC envT listeners nc h0 h1 h2 h3
  constructor
  · simp [handleVibiumClick, registerNavListeners, h0, h1, h2, h3]
  · simp [handleVibiumType, registerNavListeners, h0, h1, h2, h3]

/-- C9 witness: the theorem at the unrecognized value "bogus". -/
theorem unrecognized_waitBehavior_witness :
    handleVibiumClick 7 "#b" "c" "bogus" 1000 sampleClickEnv [] 0
      = handleVibiumClick 7 "#b" "c" "waitForNavigationStarted" 1000
          sampleClickEnv [] 0 ∧
    handleVibiumType 7 "#b" "c" "ab" "bogus" 1000 sampleTypeEnv [] 0
      = handleVibiumType 7 "#b" "c" "ab" "waitForNavigationStarted" 1000
          sampleTypeEnv [] 0 :=
  unrecognized_waitBehavior 7 "#b" "c" "ab" "bogus" 1000 sampleClickEnv
    sampleTypeEnv [] 0 (by decide) (by decide) (by decide) (by decide)

/-- C10: every error frame the extension engine sends — from
vibium:click, vibium:type or vibium:find, whatever the failure's cause —
carries the code "timeout" in error.error; only error.message varies. -/
theorem error_frames_carry_timeout_code :
    ∀ (id : Int) (selector context text waitBehavior : String)
      (timeoutMs : ℚ) (envC : ClickEnv) (envT : TypeEnv) (envF : FindEnv)
      (listeners : EventListeners) (nc : Nat),
      ((handleVibiumClick id selector context waitBehavior timeoutMs envC
          listeners nc).response.type = "error" →
        ∃ m, (handleVibiumClick id selector context waitBehavior timeoutMs
            envC listeners nc).response.error
          = some { error := "timeout", message := m }) ∧
      ((handleVibiumType id selector context text waitBehavior timeoutMs envT
          listeners nc).response.type = "error" →
        ∃ m, (handleVibiumType id selector context text waitBehavior timeoutMs
            envT listeners nc).response.error
          = some { error := "timeout", message := m }) ∧
      ((handleVibiumFind id selector context timeoutMs envF).type = "error" →
        ∃ m, (handleVibiumFind id selector context timeoutMs envF).error
          = some { error := "timeout", message := m }) := by
  intro id selector context text waitBehavior timeoutMs envC envT envF
    listeners nc
  refine ⟨?_, ?_, ?_⟩
  · rcases handleVibiumClick_response_cases id selector context waitBehavior
        timeoutMs envC listeners nc with ⟨p, hp⟩ | ⟨m, hm⟩
    · intro h
      rw [hp] at h
      exact absurd h (by simp [sendSuccess])
    · intro _
      exact ⟨m, by rw [hm]; rfl⟩
  · rcases handleVibiumType_response_cases id selector context text
        waitBehavior timeoutMs envT listeners nc with ⟨p, hp⟩ | ⟨m, hm⟩
    · intro h
      rw [hp] at h
      exact absurd h (by simp [sendSuccess])
    · intro _
      exact ⟨m, by rw [hm]; rfl⟩
  · rcases handleVibiumFind_response_cases id selector context timeoutMs envF
        with ⟨p, hp⟩ | ⟨m, hm⟩
    · intro h
      rw [hp] at h
      exact absurd h (by simp [sendSuccess])
    · intro _
      exact ⟨m, by rw [hm]; rfl⟩

/-- C10 witness: the theorem at a find whose session has no browsing
contexts — its error frame carries the code "timeout". -/
theorem error_frames_carry_timeout_code_witness :
    ∃ m, (handleVibiumFind 1 "#a" "" 300
        { tree := .contexts [], polls := fun _ => .found sampleInfo }).error
      = some { error := "timeout", message := m } :=
  (error_frames_carry_timeout_code 1 "#a" "" "ab" "" 300 sampleClickEnv
      sampleTypeEnv { tree := .contexts [], polls := fun _ => .found sampleInfo }
      [] 0).2.2 (by rfl)

end Vibium
